import Mathlib

/-!
Verification development for the log query / pagination / export core of
`frontend/components/admin/LogsTable.tsx` (with the request and error model of
`lib/api-client.ts`).

Modelling conventions:
* JavaScript strings are `String`; optional / possibly-absent fields are `Option`.
* JavaScript truthiness on an optional string (`Boolean(x)`, `x ? _ : _`,
  `x || _`) is the `truthy` predicate below: absent and `""` are falsy.
* `LogEntry.risks` is typed non-optional in TypeScript but the component guards
  against its absence (`log.risks || []`, `log.risks?.length ?? 0`), so it is
  modelled as `Option (List Risk)`.
* `LogEntry.metadata` is an untyped opaque map never read by this logic; it is
  omitted from the record.
* Array indices and JS integer quantities are `Nat` (all offsets/limits/ids in
  this logic are non-negative integers); `Array.prototype.slice (a, b)` is
  `(List.drop a) ∘ (List.take (b - a))` spelled `(l.drop a).take (b - a)`.
* The React component is modelled as a deterministic transition system: a UI
  event updates the state fields its handler sets, then the two `useEffect`
  hooks run to completion (the fetch effect when one of its dependencies
  `[limit, offset, filters]` changed, then the client-mode re-slice effect).
  Each transition also reports the list of HTTP requests issued to the Remote
  Log Source, so "no remote fetch happens" is a statement about that list.
-/

namespace LogsTable

/-- Embeds the `Risk.position` object of `api-client.ts` (`{ start, end }`). -/
structure RiskPosition where
  start : Nat
  «end» : Nat
deriving DecidableEq, Repr

/-- Embeds the `Risk` interface of `api-client.ts`. -/
structure Risk where
  type : String
  severity : String
  «match» : String := ""
  position : RiskPosition := ⟨0, 0⟩
  explanation : String := ""
deriving DecidableEq, Repr

/-- Embeds the `LogEntry` interface of `api-client.ts`.  `risks` is optional
here because the component code guards against its absence (the opaque
`metadata` map is omitted, see the module docstring). -/
structure LogEntry where
  id : Nat
  request_id : String
  timestamp : String
  decision : String
  original_prompt : Option String := none
  modified_prompt : Option String := none
  original_response : Option String := none
  modified_response : Option String := none
  risks : Option (List Risk) := none
deriving DecidableEq, Repr

/-- Embeds the `LogsResponse` interface of `api-client.ts`. -/
structure LogsResponse where
  logs : List LogEntry
  total : Nat
  limit : Nat
  offset : Nat
  has_more : Bool
deriving DecidableEq, Repr

/-- Embeds the `filters` prop of `LogsTable` (`LogsTableProps.filters`), and
equally the filter part of a `getLogs` request.  An absent field is `none`. -/
structure Filters where
  type : Option String := none
  severity : Option String := none
  date_from : Option String := none
  date_to : Option String := none
deriving DecidableEq, Repr

/-- JavaScript truthiness of an optional string: `undefined` and `""` are
falsy, every other string is truthy. -/
def truthy : Option String → Bool
  | none => false
  | some s => !(s == "")

/-- Embeds `const hasTypeOrSeverity = Boolean(filters?.type || filters?.severity)`
(LogsTable.tsx line 35 and line 100). -/
def hasTypeOrSeverity (f : Filters) : Bool :=
  truthy f.type || truthy f.severity

/-- Embeds the destructuring `const { type, severity, ...rest } = filters || {}`
(lines 39 and 104): the request keeps only the date fields. -/
def stripTypeSeverity (f : Filters) : Filters :=
  { f with type := none, severity := none }

/-- Embeds the client-side filter predicate of lines 47-52 and 112-117:
`risks = log.risks || []`, `typeOk = type ? risks.some(r => r.type === type) : true`,
`severityOk = severity ? risks.some(r => r.severity === severity) : true`. -/
def matchesFilter (type severity : Option String) (log : LogEntry) : Bool :=
  let risks := log.risks.getD []
  let typeOk := if truthy type then risks.any (fun r => r.type == type.getD "") else true
  let severityOk := if truthy severity then risks.any (fun r => r.severity == severity.getD "") else true
  typeOk && severityOk

/-- The `format` query parameter of `getLogs`. -/
inductive Format where
  | json
  | csv
deriving DecidableEq, Repr

/-- A request issued to the Remote Log Source's `/v1/logs` endpoint: the filter
fields plus the pagination and format parameters actually sent. -/
structure Request where
  type : Option String := none
  severity : Option String := none
  date_from : Option String := none
  date_to : Option String := none
  limit : Option Nat := none
  offset : Option Nat := none
  format : Format := .json
deriving DecidableEq, Repr

/-- The `getLogs` request built by spreading a filter object and explicit
`limit`/`offset`/`format` parameters, as at lines 40-45, 61-66, 105-110 and
161-166. -/
def requestOf (f : Filters) (limit offset : Nat) (format : Format) : Request :=
  { type := f.type, severity := f.severity, date_from := f.date_from,
    date_to := f.date_to, limit := some limit, offset := some offset,
    format := format }

/-- Modelled from the spec: the Remote Log Source (spec section 6), whose code
(the FastAPI backend) is not under src/.  `records f` is the record sequence
the backend's store holds for the filter fields `f` (for the requests this
component sends those are date-only, or date plus non-truthy type/severity);
`csvPayload f limit offset` is the raw CSV text its `format=csv` variant
returns for that request. -/
structure Backend where
  records : Filters → List LogEntry
  csvPayload : Filters → Nat → Nat → String

/-- Modelled from the spec: the backend's JSON page response for
`GET /v1/logs?...&limit&offset&format=json` (spec section 6): `logs` is the
requested window of the filtered store, `total` its full length, and
`has_more` says whether records exist beyond the window. -/
def remoteGetLogsJson (B : Backend) (f : Filters) (limit offset : Nat) : LogsResponse :=
  let store := B.records f
  { logs := (store.drop offset).take limit,
    total := store.length,
    limit := limit,
    offset := offset,
    has_more := decide (offset + limit < store.length) }

/-- The component's state hooks (lines 20-28) plus the `filters` prop. -/
structure State where
  logs : List LogEntry
  loading : Bool
  error : Option String
  total : Nat
  limit : Nat
  offset : Nat
  hasMore : Bool
  clientMode : Bool
  clientAll : List LogEntry
  filters : Filters
deriving DecidableEq, Repr

/-- The initial hook values of lines 20-28 for a given `filters` prop. -/
def initState (f : Filters) : State :=
  { logs := [], loading := true, error := none, total := 0, limit := 50,
    offset := 0, hasMore := false, clientMode := false, clientAll := [],
    filters := f }

/-- Outcome of one awaited `getLogs` network call, as seen by `fetchLogs`'s
`try`/`catch`: success with a parsed `LogsResponse`; a non-ok HTTP response,
carrying the parsed error body's optional `detail` field (`body = none` means
the error body was not parseable JSON) and the status text; or a network-level
failure (the `fetch` promise itself rejected with a non-`APIError`). -/
inductive NetResult where
  | success (response : LogsResponse)
  | httpError (body : Option (Option String)) (statusText : String)
  | networkFailure
deriving DecidableEq, Repr

/-- True on the two failure outcomes. -/
def NetResult.isFailure : NetResult → Bool
  | .success _ => false
  | _ => true

/-- Embeds the `APIError` message construction of `fetchAPI`
(api-client.ts lines 400-412): if the error body parses, `errorData` is it,
else `errorData = { detail: response.statusText }`; the message is
`errorData.detail || "API request failed: " ++ statusText` with JS `||`. -/
def apiErrorMessage (body : Option (Option String)) (statusText : String) : String :=
  let errorDetail : Option String :=
    match body with
    | none => some statusText
    | some d => d
  if truthy errorDetail then errorDetail.getD ""
  else "API request failed: " ++ statusText

/-- Embeds the body of `fetchLogs` (lines 30-83) given the outcome of its one
awaited `getLogs` call: on success the branch on `hasTypeOrSeverity`
(lines 37-73), on an `APIError` `setError(err.message)`, on any other throw
`setError('Failed to fetch logs')` (lines 74-79); `finally` clears `loading`
(lines 80-82). -/
def fetchLogsWith (s : State) (net : NetResult) : State :=
  match net with
  | .success response =>
    if hasTypeOrSeverity s.filters then
      let filtered := response.logs.filter
        (fun log => matchesFilter s.filters.type s.filters.severity log)
      { s with clientMode := true, clientAll := filtered,
               total := filtered.length,
               hasMore := decide (s.offset + s.limit < filtered.length),
               logs := (filtered.drop s.offset).take s.limit,
               error := none, loading := false }
    else
      { s with clientMode := false, clientAll := [],
               logs := response.logs, total := response.total,
               hasMore := response.has_more,
               error := none, loading := false }
  | .httpError body statusText =>
    { s with error := some (apiErrorMessage body statusText), loading := false }
  | .networkFailure =>
    { s with error := some "Failed to fetch logs", loading := false }

/-- The `getLogs` request `fetchLogs` issues for a given state: in local mode
the bulk request with type/severity stripped, `limit: 1000, offset: 0`
(lines 40-45); otherwise the current filters with the live `limit`/`offset`
(lines 61-66). -/
def fetchRequest (s : State) : Request :=
  if hasTypeOrSeverity s.filters then
    requestOf (stripTypeSeverity s.filters) 1000 0 .json
  else
    requestOf s.filters s.limit s.offset .json

/-- `fetchLogs` run to completion against backend `B` (the success path):
returns the settled state and the request that was issued. -/
def fetchLogs (B : Backend) (s : State) : State × Request :=
  if hasTypeOrSeverity s.filters then
    (fetchLogsWith s (.success (remoteGetLogsJson B (stripTypeSeverity s.filters) 1000 0)),
     requestOf (stripTypeSeverity s.filters) 1000 0 .json)
  else
    (fetchLogsWith s (.success (remoteGetLogsJson B s.filters s.limit s.offset)),
     requestOf s.filters s.limit s.offset .json)

/-- Embeds the second `useEffect` (lines 90-96): in client mode, re-derive the
visible slice, `hasMore` and `total` from the cached filtered results. -/
def reslice (s : State) : State :=
  if s.clientMode then
    { s with logs := (s.clientAll.drop s.offset).take s.limit,
             hasMore := decide (s.offset + s.limit < s.clientAll.length),
             total := s.clientAll.length }
  else s

/-- Embeds `disabled={offset === 0}` on the Previous button (line 290). -/
def prevDisabled (s : State) : Bool := s.offset == 0

/-- Embeds `disabled={!hasMore}` on the Next button (line 297). -/
def nextDisabled (s : State) : Bool := !s.hasMore

/-- Embeds `Math.max(0, offset - limit)` of the Previous button's `onClick`
(line 289), computed as in JS over signed numbers. -/
def prevOffset (offset limit : Nat) : Nat :=
  (max 0 ((offset : Int) - (limit : Int))).toNat

/-- Embeds `offset + limit` of the Next button's `onClick` (line 296). -/
def nextOffset (offset limit : Nat) : Nat := offset + limit

/-- The UI events that feed this state machine: a change of the `filters` prop,
a click on an enabled Previous / Next button, and a change of the page size
(the `setLimit` setter of line 24). -/
inductive Event where
  | setFilters (f : Filters)
  | prevPage
  | nextPage
  | setLimit (l : Nat)
deriving DecidableEq, Repr

/-- The synchronous state update an event's handler performs (a disabled
button fires no handler, so the guarded cases return the state unchanged). -/
def applyEvent (s : State) : Event → State
  | .setFilters f => { s with filters := f }
  | .prevPage =>
      if prevDisabled s then s
      else { s with offset := prevOffset s.offset s.limit }
  | .nextPage =>
      if nextDisabled s then s
      else { s with offset := nextOffset s.offset s.limit }
  | .setLimit l => { s with limit := l }

/-- Whether the first `useEffect`'s dependency array `[limit, offset, filters]`
(line 87) changed between two renders, so that `fetchLogs` re-runs. -/
def depsChanged (s s' : State) : Bool :=
  s.limit != s'.limit || s.offset != s'.offset || s.filters != s'.filters

/-- One settled transition of the component: apply the event's handler, run
`fetchLogs` when its dependencies changed, then the client-mode re-slice
effect; also report the requests issued to the Remote Log Source. -/
def step (B : Backend) (s : State) (e : Event) : State × List Request :=
  let s1 := applyEvent s e
  if depsChanged s s1 then
    let fr := fetchLogs B s1
    (reslice fr.1, [fr.2])
  else
    (reslice s1, [])

/-- Mounting the component: the initial state's effects run once. -/
def mount (B : Backend) (f : Filters) : State × List Request :=
  ((reslice (fetchLogs B (initState f)).1), [(fetchLogs B (initState f)).2])

/-- The states the component can settle in: the state after mount, and any
state reached from a reachable state by one settled event transition. -/
inductive Reachable (B : Backend) : State → Prop where
  | mount (f : Filters) : Reachable B (mount B f).1
  | step (s : State) (e : Event) : Reachable B s → Reachable B (step B s e).1

/-- The set that is authoritative for the displayed slice: the local filter
cache in client (local) mode, the backend's store for the current filters in
remote mode. -/
def authoritative (B : Backend) (s : State) : List LogEntry :=
  if s.clientMode then s.clientAll else B.records s.filters

/-- The pagination-consistency invariant of spec section 3: the component is
in local (client) mode exactly when the criteria carry a type or severity;
the displayed slice is `authoritative[offset : offset+limit)`; `has_more`
holds iff `offset + limit` is below the authoritative set's length; and
`total` is the authoritative set's length — in local mode, the cache length. -/
def PagingInv (B : Backend) (s : State) : Prop :=
  s.clientMode = hasTypeOrSeverity s.filters ∧
  s.logs = ((authoritative B s).drop s.offset).take s.limit ∧
  s.hasMore = decide (s.offset + s.limit < (authoritative B s).length) ∧
  s.total = (authoritative B s).length

/-- Embeds one CSV data row of `handleExport` (lines 122-131): the `cols`
array joined with `','`. -/
def csvRow (log : LogEntry) : String :=
  String.intercalate ","
    [ toString log.id,
      "\"" ++ log.request_id ++ "\"",
      "\"" ++ log.timestamp ++ "\"",
      "\"" ++ log.decision ++ "\"",
      toString (match log.risks with | some rs => rs.length | none => 0) ]

/-- Embeds the CSV text of `handleExport` (lines 119-132): the fixed header
plus the rows joined with `'\n'`. -/
def csvSerialize (filtered : List LogEntry) : String :=
  "id,request_id,timestamp,decision,risk_count\n"
    ++ String.intercalate "\n" (filtered.map csvRow)

/-- The file an export produces: raw CSV text, or the value the JSON file
serializes (`JSON.stringify` itself is not modelled; a payload is delivered
unmodified when the artifact carries the identical value). -/
inductive ExportArtifact where
  | csvFile (content : String)
  | jsonFile (content : LogsResponse)
deriving DecidableEq, Repr

/-- Embeds `handleExport` (lines 98-193) run to completion on the success
path: the artifact produced and the `getLogs` request issued.  Local mode
(type/severity set): bulk fetch with type/severity stripped, client-side
filter, then local CSV or JSON serialization (lines 102-158).  Remote mode:
one `getLogs` call with the requested format, `limit: 1000, offset: 0`, whose
payload becomes the file (lines 159-189). -/
def handleExport (B : Backend) (filters : Filters) (format : Format) :
    ExportArtifact × Request :=
  if hasTypeOrSeverity filters then
    let rest := stripTypeSeverity filters
    let response := remoteGetLogsJson B rest 1000 0
    let filtered := response.logs.filter
      (fun log => matchesFilter filters.type filters.severity log)
    match format with
    | .csv => (.csvFile (csvSerialize filtered), requestOf rest 1000 0 .json)
    | .json =>
      (.jsonFile { logs := filtered, total := filtered.length,
                   limit := filtered.length, offset := 0, has_more := false },
       requestOf rest 1000 0 .json)
  else
    match format with
    | .csv => (.csvFile (B.csvPayload filters 1000 0), requestOf filters 1000 0 .csv)
    | .json => (.jsonFile (remoteGetLogsJson B filters 1000 0), requestOf filters 1000 0 .json)

/-!
Spec-side definitions.  These follow the wording of the specification, to be
compared with the definitions above that embed the source.  A criteria field
is "set" when it is truthy: the UI encodes "no selection" as an absent field
or the empty string, so `Option String` values that are absent or `""` both
denote an unset FilterCriteria field.
-/

/-- Following the spec (section 4.2): a record matches if (risk_type unset OR
some risk on it has that type) AND (severity unset OR some risk on it has
that severity); a missing risks array is treated as empty. -/
def specMatches (risk_type severity : Option String) (log : LogEntry) : Prop :=
  (truthy risk_type = false ∨ ∃ r ∈ log.risks.getD [], some r.type = risk_type) ∧
  (truthy severity = false ∨ ∃ r ∈ log.risks.getD [], some r.severity = severity)

instance (rt sev : Option String) (log : LogEntry) : Decidable (specMatches rt sev log) := by
  unfold specMatches
  infer_instance

/-- Following the spec (sections 4.1-4.2): the authoritative set in local
mode is the subset of the first 1000 remotely returned, date-filtered-only
records satisfying the predicate of section 4.2. -/
def specFilteredSet (B : Backend) (f : Filters) : List LogEntry :=
  ((B.records (stripTypeSeverity f)).take 1000).filter
    (fun log => decide (specMatches f.type f.severity log))

/-- Following the spec (section 4.4): one CSV data row is the numeric id,
then request_id, timestamp and decision each double-quoted, then the count of
risks (0 if absent), the five fields comma-separated. -/
def csvRowSpec (log : LogEntry) : String :=
  toString log.id
    ++ ",\"" ++ log.request_id
    ++ "\",\"" ++ log.timestamp
    ++ "\",\"" ++ log.decision
    ++ "\"," ++ toString (log.risks.getD []).length

/-- Following the spec (section 4.4): the CSV export is the fixed header line
followed by one data row per record, rows newline-separated. -/
def csvSpec (logs : List LogEntry) : String :=
  "id,request_id,timestamp,decision,risk_count\n"
    ++ String.intercalate "\n" (logs.map csvRowSpec)

/-- Following the spec (section 6): the server-provided detail message of a
failed call, when present — the parsed error body's non-empty `detail`, or,
when the body is unparseable, the non-empty status text the client falls back
to.  `none` when the outcome carries no server-provided message. -/
def serverDetail : NetResult → Option String
  | .httpError none statusText => if statusText == "" then none else some statusText
  | .httpError (some d) _ => if truthy d then d else none
  | _ => none

/-!
Concrete fixtures, used by witnesses and counterexamples.  The three-record
store is the scenario of spec section 8, property 6.
-/

/-- Fixture: the record of spec section 8 property 6 with a pii/high risk. -/
def logPii : LogEntry :=
  { id := 1, request_id := "req-1", timestamp := "2024-01-01T00:00:00Z",
    decision := "block", risks := some [{ type := "pii", severity := "high" }] }

/-- Fixture: the record of spec section 8 property 6 with an injection/low risk. -/
def logInjection : LogEntry :=
  { id := 2, request_id := "req-2", timestamp := "2024-01-02T00:00:00Z",
    decision := "warn", risks := some [{ type := "injection", severity := "low" }] }

/-- Fixture: the record of spec section 8 property 6 with no risks. -/
def logClean : LogEntry :=
  { id := 3, request_id := "req-3", timestamp := "2024-01-03T00:00:00Z",
    decision := "allow", risks := some [] }

/-- Fixture: a backend holding the three scenario records for every query. -/
def testBackend : Backend :=
  { records := fun _ => [logPii, logInjection, logClean],
    csvPayload := fun _ _ _ => "id,request_id,timestamp,decision,risk_count\n" }

/-- Fixture: filter criteria selecting the pii risk type. -/
def piiFilters : Filters := { type := some "pii" }

/-- Fixture: a remote-mode (date-only) filter criteria. -/
def dateFilters : Filters := { date_from := some "2024-01-01" }

/-- Fixture: one record of a bulk store whose every record carries a pii/high
risk. -/
def bulkLog (i : Nat) : LogEntry :=
  { id := i, request_id := "req", timestamp := "2024-01-01T00:00:00Z",
    decision := "block", risks := some [{ type := "pii", severity := "high" }] }

/-- Fixture: a backend holding 51 matching records, one more than the default
page size, so that `hasMore` is true on the first local-mode page. -/
def bulkBackend : Backend :=
  { records := fun _ => (List.range 51).map bulkLog,
    csvPayload := fun _ _ _ => "" }

/-- Fixture: a record whose `request_id` contains a comma, for the CSV
escaping analysis. -/
def commaLog : LogEntry :=
  { id := 7, request_id := "a,b", timestamp := "2024-01-01T00:00:00Z",
    decision := "allow", risks := some [] }

/-- Fixture: a local-mode state paged past the end of a one-record cache,
with both navigation buttons enabled. -/
def c8State : State :=
  { logs := [], loading := false, error := none, total := 1, limit := 50,
    offset := 120, hasMore := true, clientMode := true, clientAll := [logClean],
    filters := piiFilters }


/-! Helper lemmas shared between claim theorems. -/

/-- One CSV data row of the source serializer, written as the explicit
concatenation the five-column join produces. -/
theorem csvRow_unfold (log : LogEntry) :
    csvRow log =
      toString log.id ++ "," ++ ("\"" ++ log.request_id ++ "\"") ++ ","
        ++ ("\"" ++ log.timestamp ++ "\"") ++ "," ++ ("\"" ++ log.decision ++ "\"") ++ ","
        ++ toString (match log.risks with | some rs => rs.length | none => 0) := by
  simp [csvRow, String.intercalate, String.intercalate.go]

/-- Folding a comma literal into a following double-quote literal. -/
theorem comma_quote_append (x : String) : "," ++ ("\"" ++ x) = ",\"" ++ x := rfl

/-- Folding a quote-comma literal into a following double-quote literal. -/
theorem quote_comma_quote_append (x : String) :
    "\"," ++ ("\"" ++ x) = "\",\"" ++ x := rfl

/-- The source's CSV row coincides with the spec's row description. -/
theorem csvRow_eq_spec (log : LogEntry) : csvRow log = csvRowSpec log := by
  rw [csvRow_unfold]
  unfold csvRowSpec
  cases log.risks <;>
    simp [String.append_assoc, comma_quote_append, quote_comma_quote_append]

/-- The source's client-side match predicate decides the spec predicate of
section 4.2. -/
theorem matchesFilter_eq_spec (rt sev : Option String) (log : LogEntry) :
    matchesFilter rt sev log = decide (specMatches rt sev log) := by
  rw [Bool.eq_iff_iff, decide_eq_true_eq]
  unfold matchesFilter specMatches
  rcases rt with _ | t <;> rcases sev with _ | v
  · simp [truthy]
  · by_cases hv : v = "" <;> simp [truthy, hv, List.any_eq_true]
  · by_cases ht : t = "" <;> simp [truthy, ht, List.any_eq_true]
  · by_cases ht : t = "" <;> by_cases hv : v = "" <;>
      simp [truthy, ht, hv, List.any_eq_true]

/-- The decimal digit characters never include a comma. -/
theorem digitChar_ne_comma (m : Nat) : Nat.digitChar m ≠ ',' := by
  rcases Nat.lt_or_ge m 16 with h | h
  · interval_cases m <;> decide
  · unfold Nat.digitChar
    repeat rw [if_neg (by omega)]
    decide

/-- Digit rendering adds no comma to the accumulator. -/
theorem count_comma_toDigitsCore (b : Nat) (f : Nat) :
    ∀ (n : Nat) (l : List Char), l.count ',' = 0 →
      (Nat.toDigitsCore b f n l).count ',' = 0 := by
  induction f with
  | zero => intro n l hl; simpa [Nat.toDigitsCore] using hl
  | succ f ih =>
      intro n l hl
      rw [Nat.toDigitsCore]
      have hcons : (Nat.digitChar (n % b) :: l).count ',' = 0 := by
        rw [List.count_cons_of_ne (Ne.symm (digitChar_ne_comma (n % b)))]
        exact hl
      split
      · exact hcons
      · exact ih (n / b) _ hcons

/-- The decimal rendering of a natural number contains no comma. -/
theorem count_comma_toString_nat (n : Nat) : ((toString n).data.count ',') = 0 := by
  show ((Nat.repr n).data.count ',') = 0
  rw [Nat.repr]
  exact count_comma_toDigitsCore 10 (n + 1) n [] rfl

/-- Splitting a list at a separator yields one more part than there are
separator occurrences. -/
theorem length_splitOn_eq_count {α : Type} [DecidableEq α] (c : α) (l : List α) :
    (l.splitOn c).length = l.count c + 1 := by
  induction l with
  | nil => simp [List.splitOn, List.splitOnP_nil]
  | cons x xs ih =>
      rw [List.splitOn] at ih ⊢
      rw [List.splitOnP_cons]
      by_cases h : x = c
      · subst h
        simp only [beq_self_eq_true, if_true, List.length_cons, List.count_cons_self]
        omega
      · have hb : (x == c) = false := beq_eq_false_iff_ne.mpr h
        simp only [hb, Bool.false_eq_true, if_false, List.length_modifyHead]
        rw [ih, List.count_cons_of_ne (Ne.symm h)]

/-- A CSV data row over comma-free field values contains exactly the four
separator commas. -/
theorem csvRow_count_comma (log : LogEntry)
    (h1 : log.request_id.data.count ',' = 0)
    (h2 : log.timestamp.data.count ',' = 0)
    (h3 : log.decision.data.count ',' = 0) :
    ((csvRow log).data.count ',') = 4 := by
  rw [csvRow_unfold]
  simp [String.data_append, List.count_append, h1, h2, h3, count_comma_toString_nat]

/-! Claim theorems. -/

/-- C6: for every filtered record list, the local-mode CSV export is the
header line `id,request_id,timestamp,decision,risk_count` followed by exactly
one data row per record (so exactly `total` data rows), each row being the
five fields — numeric id, then request_id, timestamp and decision each
double-quoted, then the count of the record's risks (0 if absent) —
comma-separated, with rows newline-separated, exactly as the spec's section
4.4 serialization describes; and whenever a record's string fields are
comma-free its row splits at commas into exactly 5 fields (the verbatim
interpolation caveat for comma-bearing values is the subject of C10). -/
theorem c6_csv_export_shape (logs : List LogEntry) :
    csvSerialize logs = csvSpec logs ∧
    (logs.map csvRow).length = logs.length ∧
    (∀ log ∈ logs, log.request_id.data.count ',' = 0 →
      log.timestamp.data.count ',' = 0 → log.decision.data.count ',' = 0 →
      ((csvRow log).data.splitOn ',').length = 5) := by
  refine ⟨?_, List.length_map logs csvRow, ?_⟩
  · unfold csvSerialize csvSpec
    rw [List.map_congr_left (fun log _ => csvRow_eq_spec log)]
  · intro log _ h1 h2 h3
    rw [length_splitOn_eq_count, csvRow_count_comma log h1 h2 h3]

/-- Witness for C6 at a one-record list with comma-free fields. -/
theorem c6_witness :
    csvSerialize [logPii] = csvSpec [logPii] ∧
    ([logPii].map csvRow).length = [logPii].length ∧
    ((csvRow logPii).data.splitOn ',').length = 5 :=
  ⟨(c6_csv_export_shape [logPii]).1, (c6_csv_export_shape [logPii]).2.1,
   (c6_csv_export_shape [logPii]).2.2 logPii (by decide) (by decide) (by decide)
     (by decide)⟩

/-- C10: the local-mode CSV serializer interpolates field values verbatim
with no escaping — each data row is literally the id, the quoted request_id,
timestamp and decision, and the risk count concatenated with commas — so for
a record whose request_id contains a comma the produced row does not split
into exactly 5 comma-separated fields (here it splits into 6). -/
theorem c10_csv_no_escaping :
    (∀ log : LogEntry, csvRow log =
      toString log.id ++ "," ++ ("\"" ++ log.request_id ++ "\"") ++ ","
        ++ ("\"" ++ log.timestamp ++ "\"") ++ "," ++ ("\"" ++ log.decision ++ "\"") ++ ","
        ++ toString (match log.risks with | some rs => rs.length | none => 0)) ∧
    csvRow commaLog = "7,\"a,b\",\"2024-01-01T00:00:00Z\",\"allow\",0" ∧
    ((csvRow commaLog).data.splitOn ',').length = 6 ∧
    ¬ ((csvRow commaLog).data.splitOn ',').length = 5 := by
  refine ⟨csvRow_unfold, by decide, by decide, by decide⟩

/-- C2: for every filter criteria with risk_type and/or severity set, the
authoritative displayed set the fetch produces (the local filter cache) is
exactly the subset of the first 1000 remotely returned, date-filtered-only
records satisfying the spec's section 4.2 predicate, and the component is in
local mode. -/
theorem c2_local_mode_filtered_set (B : Backend) (s : State)
    (h : hasTypeOrSeverity s.filters = true) :
    (fetchLogs B s).1.clientMode = true ∧
    (fetchLogs B s).1.clientAll = specFilteredSet B s.filters := by
  unfold fetchLogs fetchLogsWith specFilteredSet remoteGetLogsJson
  simp [h, matchesFilter_eq_spec]

/-- Witness for C2: the spec's section 8 scenario — three records, filtering
by type `pii` — instantiates the theorem. -/
theorem c2_witness :
    hasTypeOrSeverity (initState piiFilters).filters = true ∧
    ((fetchLogs testBackend (initState piiFilters)).1.clientMode = true ∧
     (fetchLogs testBackend (initState piiFilters)).1.clientAll =
       specFilteredSet testBackend (initState piiFilters).filters) :=
  ⟨by decide, c2_local_mode_filtered_set testBackend (initState piiFilters) (by decide)⟩

/-- C7: for every filter criteria in local mode, the JSON export is the
object with `logs` the filtered array, `total` and `limit` both the filtered
array's length, `offset` 0 and `has_more` false. -/
theorem c7_json_export_shape (B : Backend) (f : Filters)
    (h : hasTypeOrSeverity f = true) :
    (handleExport B f .json).1 =
      .jsonFile { logs := specFilteredSet B f,
                  total := (specFilteredSet B f).length,
                  limit := (specFilteredSet B f).length,
                  offset := 0, has_more := false } := by
  unfold handleExport specFilteredSet remoteGetLogsJson
  simp [h, matchesFilter_eq_spec]

/-- Witness for C7 at the section 8 scenario. -/
theorem c7_witness :
    hasTypeOrSeverity piiFilters = true ∧
    (handleExport testBackend piiFilters .json).1 =
      .jsonFile { logs := specFilteredSet testBackend piiFilters,
                  total := (specFilteredSet testBackend piiFilters).length,
                  limit := (specFilteredSet testBackend piiFilters).length,
                  offset := 0, has_more := false } :=
  ⟨by decide, c7_json_export_shape testBackend piiFilters (by decide)⟩

/-- C5: in local mode, the record sequence the export serializes (the `logs`
of the JSON artifact; the input of the CSV serialization) is exactly the
displayed authoritative set the fetch computes for the same criteria: both
paths use the same bounded fetch (limit 1000, offset 0, type and severity
stripped) and the same match predicate. -/
theorem c5_export_matches_display (B : Backend) (s : State)
    (h : hasTypeOrSeverity s.filters = true) :
    (handleExport B s.filters .json).1 =
      .jsonFile { logs := (fetchLogs B s).1.clientAll,
                  total := (fetchLogs B s).1.clientAll.length,
                  limit := (fetchLogs B s).1.clientAll.length,
                  offset := 0, has_more := false } ∧
    (handleExport B s.filters .csv).1 =
      .csvFile (csvSerialize (fetchLogs B s).1.clientAll) := by
  unfold handleExport fetchLogs fetchLogsWith
  simp [h]

/-- Witness for C5 at the section 8 scenario. -/
theorem c5_witness :
    hasTypeOrSeverity (initState piiFilters).filters = true ∧
    ((handleExport testBackend (initState piiFilters).filters .json).1 =
      .jsonFile { logs := (fetchLogs testBackend (initState piiFilters)).1.clientAll,
                  total := (fetchLogs testBackend (initState piiFilters)).1.clientAll.length,
                  limit := (fetchLogs testBackend (initState piiFilters)).1.clientAll.length,
                  offset := 0, has_more := false } ∧
     (handleExport testBackend (initState piiFilters).filters .csv).1 =
      .csvFile (csvSerialize (fetchLogs testBackend (initState piiFilters)).1.clientAll)) :=
  ⟨by decide, c5_export_matches_display testBackend (initState piiFilters) (by decide)⟩

/-- Counterexample to C4 as stated: the remote export request is not unpaged —
it carries `limit: 1000, offset: 0`. -/
theorem c4_counterexample :
    ¬ ((handleExport testBackend dateFilters .csv).2.limit = none ∧
       (handleExport testBackend dateFilters .csv).2.offset = none) := by
  decide

/-- C4 amended: for every filter criteria without risk_type/severity, the
export sends the filter criteria together with the fixed pagination
`limit = 1000, offset = 0` to the Remote Log Source in the requested format,
and delivers the returned payload unmodified (the raw CSV text; the JSON
response value), for both formats. -/
theorem c4_remote_export_passthrough (B : Backend) (f : Filters) (format : Format)
    (h : hasTypeOrSeverity f = false) :
    (handleExport B f format).2 = requestOf f 1000 0 format ∧
    (handleExport B f .csv).1 = .csvFile (B.csvPayload f 1000 0) ∧
    (handleExport B f .json).1 = .jsonFile (remoteGetLogsJson B f 1000 0) := by
  unfold handleExport
  cases format <;> simp [h]

/-- Witness for the amended C4 at a date-only criteria. -/
theorem c4_witness :
    hasTypeOrSeverity dateFilters = false ∧
    ((handleExport testBackend dateFilters .csv).2 = requestOf dateFilters 1000 0 .csv ∧
     (handleExport testBackend dateFilters .csv).1 =
       .csvFile (testBackend.csvPayload dateFilters 1000 0) ∧
     (handleExport testBackend dateFilters .json).1 =
       .jsonFile (remoteGetLogsJson testBackend dateFilters 1000 0)) :=
  ⟨by decide, c4_remote_export_passthrough testBackend dateFilters .csv (by decide)⟩

/-- C9: when the Remote Log Source call fails — network error or non-success
HTTP status — the fetch operation settles with `loading` false and an
observable error message: the server-provided detail when present, else a
generic failure message. -/
theorem c9_failure_observable (s : State) (net : NetResult)
    (h : net.isFailure = true) :
    (fetchLogsWith s net).loading = false ∧
    ∃ m, (fetchLogsWith s net).error = some m ∧
      (serverDetail net = some m ∨
       (serverDetail net = none ∧
        (m = "Failed to fetch logs" ∨ ∃ st, m = "API request failed: " ++ st))) := by
  cases net with
  | success r => simp [NetResult.isFailure] at h
  | networkFailure =>
      exact ⟨rfl, "Failed to fetch logs", rfl, .inr ⟨rfl, .inl rfl⟩⟩
  | httpError body st =>
      refine ⟨rfl, apiErrorMessage body st, rfl, ?_⟩
      rcases body with _ | d
      · by_cases hst : st = ""
        · exact .inr ⟨by simp [serverDetail, hst], .inr ⟨st, by simp [apiErrorMessage, truthy, hst]⟩⟩
        · exact .inl (by simp [serverDetail, apiErrorMessage, truthy, hst])
      · rcases d with _ | x
        · exact .inr ⟨by simp [serverDetail, truthy], .inr ⟨st, by simp [apiErrorMessage, truthy]⟩⟩
        · by_cases hx : x = ""
          · exact .inr ⟨by simp [serverDetail, truthy, hx],
              .inr ⟨st, by simp [apiErrorMessage, truthy, hx]⟩⟩
          · exact .inl (by simp [serverDetail, apiErrorMessage, truthy, hx])

/-- Witness for C9: a 500 response whose body carries `detail: "boom"`. -/
theorem c9_witness :
    (NetResult.httpError (some (some "boom")) "Internal Server Error").isFailure = true ∧
    ((fetchLogsWith (initState piiFilters)
        (.httpError (some (some "boom")) "Internal Server Error")).loading = false ∧
     ∃ m, (fetchLogsWith (initState piiFilters)
        (.httpError (some (some "boom")) "Internal Server Error")).error = some m ∧
      (serverDetail (.httpError (some (some "boom")) "Internal Server Error") = some m ∨
       (serverDetail (.httpError (some (some "boom")) "Internal Server Error") = none ∧
        (m = "Failed to fetch logs" ∨ ∃ st, m = "API request failed: " ++ st)))) :=
  ⟨by decide, c9_failure_observable (initState piiFilters)
    (.httpError (some (some "boom")) "Internal Server Error") (by decide)⟩


/-- Running the fetch effect and then the client-mode re-slice effect
establishes the pagination invariant from any prior state. -/
theorem pagingInv_after_fetch (B : Backend) (s : State) :
    PagingInv B (reslice (fetchLogs B s).1) := by
  unfold PagingInv fetchLogs fetchLogsWith reslice authoritative remoteGetLogsJson
  cases h : hasTypeOrSeverity s.filters <;> simp [h]

/-- When the fetch effect's dependencies did not change, the event handler
left the state unchanged. -/
theorem applyEvent_eq_self (s : State) (e : Event)
    (h : depsChanged s (applyEvent s e) = false) : applyEvent s e = s := by
  cases e with
  | setFilters f =>
      simp only [applyEvent, depsChanged, bne_self_eq_false, Bool.or_self,
        Bool.false_or, bne_eq_false_iff_eq] at h
      simp only [applyEvent]
      rw [← h]
  | prevPage =>
      by_cases hd : prevDisabled s
      · simp [applyEvent, hd]
      · simp only [applyEvent, if_neg hd] at h ⊢
        simp only [depsChanged, bne_self_eq_false, Bool.or_self, Bool.false_or,
          Bool.or_self_left, Bool.or_eq_false_iff, bne_eq_false_iff_eq] at h
        rw [← h.1]
  | nextPage =>
      by_cases hd : nextDisabled s
      · simp [applyEvent, hd]
      · simp only [applyEvent, if_neg hd] at h ⊢
        simp only [depsChanged, bne_self_eq_false, Bool.or_self, Bool.false_or,
          Bool.or_self_left, Bool.or_eq_false_iff, bne_eq_false_iff_eq] at h
        rw [← h.1]
  | setLimit l =>
      simp only [applyEvent, depsChanged, bne_self_eq_false, Bool.or_self,
        Bool.or_eq_false_iff, bne_eq_false_iff_eq] at h
      simp only [applyEvent]
      rw [← h.1.1]

/-- The client-mode re-slice effect preserves the pagination invariant. -/
theorem pagingInv_reslice (B : Backend) (s : State) (h : PagingInv B s) :
    PagingInv B (reslice s) := by
  obtain ⟨h1, h2, h3, h4⟩ := h
  unfold PagingInv reslice authoritative at *
  cases hc : s.clientMode <;> simp [hc] at h1 h2 h3 h4 ⊢
  · exact ⟨h1, h2, h3, h4⟩
  · exact h1


/-- C3: at every reachable settled state, with A the authoritative set (the
local filter cache in local mode, the backend's store for the current
filters in remote mode), the component is in local mode exactly when the
criteria carry a type or severity, the displayed slice is
`A[offset : offset+limit)`, `has_more` holds iff `offset + limit` is below
A's length, and `total` is A's length — in local mode, the cache length. -/
theorem c3_pagination_invariant (B : Backend) (s : State)
    (h : Reachable B s) : PagingInv B s := by
  induction h with
  | mount f => exact pagingInv_after_fetch B (initState f)
  | step s' e _ ih =>
      show PagingInv B (step B s' e).1
      rw [step]
      by_cases hd : depsChanged s' (applyEvent s' e) = true
      · simp only [hd, if_true]
        exact pagingInv_after_fetch B (applyEvent s' e)
      · have hd' : depsChanged s' (applyEvent s' e) = false :=
          Bool.eq_false_iff.mpr hd
        simp only [hd', Bool.false_eq_true, if_false]
        rw [applyEvent_eq_self s' e hd']
        exact pagingInv_reslice B s' ih

/-- Witness for C3: the state settled after mounting over the section 8
scenario backend with the pii criteria is reachable and satisfies the
invariant. -/
theorem c3_witness : PagingInv testBackend (mount testBackend piiFilters).1 :=
  c3_pagination_invariant testBackend (mount testBackend piiFilters).1
    (Reachable.mount piiFilters)

/-- C8: the Previous action lands at `max(0, O - L)` and its button is
disabled iff the offset is 0; the Next action lands at `O + L` and its button
is disabled iff `has_more` is false; there is no wrap-around, and an offset
at or beyond the cached total yields an empty visible slice with `has_more`
false. -/
theorem c8_navigation (s : State) :
    (prevDisabled s = true ↔ s.offset = 0) ∧
    (nextDisabled s = true ↔ s.hasMore = false) ∧
    (prevDisabled s = false →
      ((applyEvent s .prevPage).offset : Int) =
        max 0 ((s.offset : Int) - (s.limit : Int))) ∧
    (nextDisabled s = false →
      (applyEvent s .nextPage).offset = s.offset + s.limit) ∧
    (s.clientMode = true → s.clientAll.length ≤ s.offset →
      (reslice s).logs = [] ∧ (reslice s).hasMore = false) := by
  refine ⟨?_, ?_, ?_, ?_, ?_⟩
  · simp [prevDisabled]
  · simp [nextDisabled]
  · intro h
    simp only [applyEvent, h, Bool.false_eq_true, if_false, prevOffset]
    exact Int.toNat_of_nonneg (le_max_left 0 _)
  · intro h
    simp only [applyEvent, h, Bool.false_eq_true, if_false, nextOffset]
  · intro hc hlen
    unfold reslice
    simp only [hc, if_true]
    refine ⟨?_, ?_⟩
    · rw [List.drop_eq_nil_of_le hlen, List.take_nil]
    · simp only [decide_eq_false_iff_not, not_lt]
      omega

/-- Witness for C8 at a concrete local-mode state (offset 120, limit 50,
one-record cache): Previous lands at 70, Next at 170, and the out-of-range
slice is empty with `has_more` false. -/
theorem c8_witness :
    ((applyEvent c8State .prevPage).offset : Int) =
      max 0 ((c8State.offset : Int) - (c8State.limit : Int)) ∧
    (applyEvent c8State .nextPage).offset = c8State.offset + c8State.limit ∧
    (reslice c8State).logs = [] ∧ (reslice c8State).hasMore = false :=
  ⟨(c8_navigation c8State).2.2.1 (by decide),
   (c8_navigation c8State).2.2.2.1 (by decide),
   ((c8_navigation c8State).2.2.2.2 (by decide) (by decide)).1,
   ((c8_navigation c8State).2.2.2.2 (by decide) (by decide)).2⟩

/-- C1 fails on the code; this theorem evaluates the code at the failing
input.  After mounting with the pii criteria over a 51-record store the
component is in local mode at offset 0 with a further page available;
clicking Next changes only the offset (filters and limit unchanged) — yet the
transition issues a fresh bulk request to the Remote Log Source, because the
fetch effect's dependency array `[limit, offset, filters]` includes the
offset, so `fetchLogs` re-runs on an offset-only change instead of only
re-slicing the cache. -/
theorem c1_offset_only_change_refetches :
    (mount bulkBackend piiFilters).1.clientMode = true ∧
    (mount bulkBackend piiFilters).1.offset = 0 ∧
    (mount bulkBackend piiFilters).1.hasMore = true ∧
    (applyEvent (mount bulkBackend piiFilters).1 .nextPage).offset = 50 ∧
    (applyEvent (mount bulkBackend piiFilters).1 .nextPage).limit =
      (mount bulkBackend piiFilters).1.limit ∧
    (applyEvent (mount bulkBackend piiFilters).1 .nextPage).filters =
      (mount bulkBackend piiFilters).1.filters ∧
    (step bulkBackend (mount bulkBackend piiFilters).1 .nextPage).2 =
      [requestOf (stripTypeSeverity piiFilters) 1000 0 .json] := by
  decide

end LogsTable
